import Mathlib

/-!
Shallow embedding of `webrtc_zonder_user.py`, a Genesys Cloud WebRTC
provisioning batch job.  Network interaction is modelled by passing the
remote system's responses explicitly: a paged listing endpoint becomes a
`List` of page responses consumed in page order, a single request becomes
its status code and body, and a polled read becomes a function from the
attempt number to the response.  Mutating requests (POST/PUT/PATCH) are
recorded as `Effect` values so that theorems can speak about which
mutations a code path issues.  Python `None` is modelled by `Option`,
raised exceptions by `Except.error`, HTTP status codes by `Nat`.
-/

namespace WebRTC

/-- A mutating HTTP request issued by the job, with the request data the
claims care about.  Proficiency (a Python float) is carried opaquely as a
rational number: the code never computes with it, only forwards it. -/
inductive Effect where
  | postPhone
  | putDefaultStation (stationId : String)
  | patchSkillBulk (skillId : String) (proficiency : Rat)
  | patchLanguageBulk (languageId : String) (proficiency : Rat)
deriving DecidableEq

/-- An entity of a paged listing response: a dict from which the code reads
`name` and/or `id` via `.get` (absent key = `none`). -/
structure Ent where
  name : Option String
  id : Option String
deriving DecidableEq

/-- One page of a paged listing response: HTTP status, the `entities`
array (already `or []`-normalised), and the `pageCount` metadata. -/
structure EntPage where
  status : Nat
  entities : List Ent
  pageCount : Nat
deriving DecidableEq

/-- Whitespace in the sense of Python's `str.strip()` (ASCII fragment). -/
def isSpaceChar (c : Char) : Bool :=
  c == ' ' || c == '\t' || c == '\n' || c == '\r' || c == '\x0b' || c == '\x0c'

/-- Python `str.strip()`: drop leading and trailing whitespace. -/
def pyStrip (s : String) : String :=
  ⟨((s.toList.dropWhile isSpaceChar).reverse.dropWhile isSpaceChar).reverse⟩

/-- Python `str.lower()` on one character (ASCII fragment). -/
def lowerChar (c : Char) : Char :=
  if c.toNat ≥ 65 ∧ c.toNat ≤ 90 then Char.ofNat (c.toNat + 32) else c

/-- Python `str.lower()` (ASCII fragment). -/
def pyLower (s : String) : String := ⟨s.toList.map lowerChar⟩

/-- `(s or "").strip().lower()` as applied to names in the lookup code. -/
def canonName (s : String) : String := pyLower (pyStrip s)

/-- Loop body of `find_routing_skill_id_by_name` /
`find_routing_language_id_by_name` (they are textually identical except
for the URL): scan the current page for an entity whose canonical name
equals the needle, return its `id` on the first hit, stop with `none` on
a non-200 response or once `page >= pageCount`. -/
def findRoutingIdGo (needle : String) : Nat → List EntPage → Option String
  | _, [] => none
  | page, p :: rest =>
    if p.status ≠ 200 then none
    else
      match p.entities.find? (fun s => canonName (s.name.getD "") == needle) with
      | some e => e.id
      | none => if page ≥ p.pageCount then none else findRoutingIdGo needle (page + 1) rest

/-- `find_routing_skill_id_by_name(token, skill_name_exact)` with the
skills listing's pages passed explicitly. -/
def find_routing_skill_id_by_name (skillNameExact : String) (pages : List EntPage) :
    Option String :=
  findRoutingIdGo (canonName skillNameExact) 1 pages

/-- `find_routing_language_id_by_name(token, language_name_exact)`. -/
def find_routing_language_id_by_name (languageNameExact : String) (pages : List EntPage) :
    Option String :=
  findRoutingIdGo (canonName languageNameExact) 1 pages

/-- Modelled from the spec's words for comparison (refinement): the id of
the first entity over the concatenation of all pages whose canonical name
matches, `none` if no entity matches. -/
def resolve_skill_id_spec (skillName : String) (pages : List EntPage) : Option String :=
  (((pages.map (·.entities)).flatten).find?
      (fun s => canonName (s.name.getD "") == canonName skillName)).bind (·.id)

/-- Substring test `needle in haystack` on Python strings. -/
def strContainsSub (hay needle : String) : Bool :=
  decide (needle.toList <:+: hay.toList)

/-- Loop body of `find_phone_id_by_name_contains`: case-insensitive
substring match of the (already canonicalised) needle against each
phone's lowered name, guarded by `needle` being non-empty. -/
def findPhoneGo (needle : String) : Nat → List EntPage → Option String
  | _, [] => none
  | page, p :: rest =>
    if p.status ≠ 200 then none
    else
      match p.entities.find?
          (fun ph => needle ≠ "" && strContainsSub (pyLower (ph.name.getD "")) needle) with
      | some ph => ph.id
      | none => if page ≥ p.pageCount then none else findPhoneGo needle (page + 1) rest

/-- `find_phone_id_by_name_contains(token, name_contains)`:
`needle = (name_contains or "").strip().lower()`, then the paged scan. -/
def find_phone_id_by_name_contains (nameContains : String) (pages : List EntPage) :
    Option String :=
  findPhoneGo (pyLower (pyStrip nameContains)) 1 pages

/-- Loop body of `user_has_skill` / `user_has_language` (textually
identical except for the URL): true iff some entity's id equals the
target; a non-200 page or page exhaustion yields false. -/
def pagedHasIdGo (targetId : String) : Nat → List EntPage → Bool
  | _, [] => false
  | page, p :: rest =>
    if p.status ≠ 200 then false
    else if p.entities.any (fun e => e.id == some targetId) then true
    else if page ≥ p.pageCount then false
    else pagedHasIdGo targetId (page + 1) rest

/-- `user_has_skill(token, user_id, skill_id)` with the user's
routing-skills pages passed explicitly. -/
def user_has_skill (pages : List EntPage) (skillId : String) : Bool :=
  pagedHasIdGo skillId 1 pages

/-- `user_has_language(token, user_id, language_id)`. -/
def user_has_language (pages : List EntPage) (languageId : String) : Bool :=
  pagedHasIdGo languageId 1 pages

/-- A raw user entity of `GET /users` (fields the code reads via `.get`). -/
structure RawUser where
  state : Option String
  id : Option String
  name : Option String
  email : Option String
  department : Option String
  title : Option String
deriving DecidableEq

/-- The per-user dict the job builds from a raw user entity. -/
structure UserRec where
  ID : Option String
  Naam : String
  Email : Option String
  Afdeling : Option String
  Titel : Option String
deriving DecidableEq

/-- One page of the `GET /users` listing. -/
structure UserPage where
  status : Nat
  entities : List RawUser
  pageCount : Nat
deriving DecidableEq

/-- The body of the per-entity loop of `get_all_active_users`: skip users
whose `state` is not `"active"`, otherwise project the fields. -/
def activeUserRec (u : RawUser) : Option UserRec :=
  if u.state == some "active" then
    some { ID := u.id, Naam := u.name.getD "", Email := u.email,
           Afdeling := u.department, Titel := u.title }
  else none

/-- Loop of `get_all_active_users`: accumulate active users page by page.
After appending a page the loop first breaks on `page >= pageCount`; only
when it continues to another page does it apply the `MAX_USERS` cap
(truncate and stop once the accumulator reaches the cap).  A non-200 page
stops with the users gathered so far. -/
def getAllActiveUsersGo (maxUsers : Nat) : Nat → List UserRec → List UserPage → List UserRec
  | _, acc, [] => acc
  | page, acc, p :: rest =>
    if p.status ≠ 200 then acc
    else
      let acc' := acc ++ p.entities.filterMap activeUserRec
      if page ≥ p.pageCount then acc'
      else if maxUsers ≠ 0 ∧ acc'.length ≥ maxUsers then acc'.take maxUsers
      else getAllActiveUsersGo maxUsers (page + 1) acc' rest

/-- `get_all_active_users(token)` with the listing's pages passed
explicitly and `MAX_USERS` as a parameter (`0` = no limit). -/
def get_all_active_users (maxUsers : Nat) (pages : List UserPage) : List UserRec :=
  getAllActiveUsersGo maxUsers 1 [] pages

/-- A JSON value as far as `is_default_station_set` inspects one: a
string, an object (association list of fields), or anything else. -/
inductive JVal where
  | jstr (s : String)
  | jobj (fields : List (String × JVal))
  | jother

/-- `d.get(k)` on a JSON object. -/
def jlookup (fields : List (String × JVal)) (k : String) : Option JVal :=
  (fields.find? (fun kv => kv.1 == k)).map (·.2)

/-- The candidate extracted from one of the five flat keys: a string value
directly, or a dict value's string `id`. -/
def candidateOfVal : Option JVal → Option String
  | some (.jstr s) => some s
  | some (.jobj fs) =>
    match jlookup fs "id" with
    | some (.jstr i) => some i
    | _ => none
  | _ => none

/-- The five alias keys probed by `is_default_station_set`, in code order. -/
def stationKeys : List String :=
  ["defaultStationId", "defaultStation", "stationId", "associatedStationId", "associatedStation"]

/-- `is_default_station_set(state, expected_station_id)`: false on a falsy
state (absent or empty dict) or falsy expected id (absent or empty);
otherwise collect candidates from the alias keys plus a nested
`station.id`, drop falsy candidates, and test membership. -/
def is_default_station_set (state : Option (List (String × JVal)))
    (expected : Option String) : Bool :=
  match state, expected with
  | some st, some e =>
    if st.isEmpty || e == "" then false
    else
      let cands := stationKeys.filterMap (fun k => candidateOfVal (jlookup st k))
      let cands := cands ++
        (match jlookup st "station" with
         | some (.jobj fs) =>
           match jlookup fs "id" with
           | some (.jstr i) => [i]
           | _ => []
         | _ => [])
      (cands.filter (fun c => c ≠ "")).contains e
  | _, _ => false

/-- The verification loop of `set_default_station`: up to `retries`
re-reads (the read of attempt `n` is `reads n`; `none` models a non-200
`GET /users/{id}/station`); a match returns early, and falling off the
loop still returns `true` (accepted but unverified). -/
def setDefaultVerifyLoop (reads : Nat → Option (List (String × JVal)))
    (stationId : String) : Nat → Nat → Bool
  | _, 0 => true
  | attempt, k + 1 =>
    if is_default_station_set (reads attempt) (some stationId) then true
    else setDefaultVerifyLoop reads stationId (attempt + 1) k

/-- `set_default_station(token, user_id, station_id)`: the PUT's status
decides the result; {200, 202, 204} are accepted, anything else returns
`false`.  On acceptance the bounded verification loop runs but both of
its outcomes return `true`. -/
def set_default_station (putStatus : Nat) (reads : Nat → Option (List (String × JVal)))
    (stationId : String) (retries : Nat) : Bool :=
  if putStatus = 200 ∨ putStatus = 202 ∨ putStatus = 204 then
    setDefaultVerifyLoop reads stationId 1 retries
  else false

/-- `lines[0].get("lineBaseSettings", {}) or {}` target: a dict whose
`id` the code reads via `.get`. -/
structure LineBaseSettings where
  id : Option String
deriving DecidableEq

/-- One entry of the template phone's `lines` array. -/
structure LineEntry where
  lineBaseSettings : Option LineBaseSettings
deriving DecidableEq

/-- The template phone configuration as `build_payload_from_template`
reads it: `site.id` and `phoneBaseSettings.id` are accessed with `[]`
(the claims assume they are present), `lines` with `.get(..., []) or []`
(`none` models an absent or null `lines`). -/
structure TemplatePhone where
  siteId : String
  phoneBaseSettingsId : String
  lines : Option (List LineEntry)
deriving DecidableEq

/-- The creation payload, flattening the single-field wrapper objects
(`site.id`, `phoneBaseSettings.id`, `webRtcUser.id`, and each line's
`lineBaseSettings.id`) to their ids. -/
structure Payload where
  name : String
  siteId : String
  phoneBaseSettingsId : String
  webRtcUserId : Option String
  lineBaseSettingsIds : List String
deriving DecidableEq

/-- `build_payload_from_template(template_phone, user)`: `ValueError`s
become `Except.error` with the source's messages; an empty-string
`lineBaseSettings.id` is falsy in Python and also raises. -/
def build_payload_from_template (tp : TemplatePhone) (u : UserRec) : Except String Payload :=
  match tp.lines.getD [] with
  | [] => .error "Template phone has no lines[]"
  | l0 :: _ =>
    match (l0.lineBaseSettings.getD ⟨none⟩).id with
    | none => .error "Template phone lines[0].lineBaseSettings.id missing"
    | some lid =>
      if lid = "" then .error "Template phone lines[0].lineBaseSettings.id missing"
      else
        .ok { name := "WebRTC - " ++ u.Naam,
              siteId := tp.siteId,
              phoneBaseSettingsId := tp.phoneBaseSettingsId,
              webRtcUserId := u.ID,
              lineBaseSettingsIds := [lid] }

/-- `ensure_user_skill(token, user, skill_id, proficiency)`: the
membership check first; if it reports the skill present, succeed with no
mutation; otherwise issue the bulk PATCH (recorded as an effect), whose
status in {200, 201, 202, 204} decides the result. -/
def ensure_user_skill (hasPages : List EntPage) (patchStatus : Nat)
    (skillId : String) (proficiency : Rat) : Bool × List Effect :=
  if user_has_skill hasPages skillId then (true, [])
  else if patchStatus = 200 ∨ patchStatus = 201 ∨ patchStatus = 202 ∨ patchStatus = 204 then
    (true, [Effect.patchSkillBulk skillId proficiency])
  else (false, [Effect.patchSkillBulk skillId proficiency])

/-- `ensure_user_language(token, user, language_id, proficiency)`. -/
def ensure_user_language (hasPages : List EntPage) (patchStatus : Nat)
    (languageId : String) (proficiency : Rat) : Bool × List Effect :=
  if user_has_language hasPages languageId then (true, [])
  else if patchStatus = 200 ∨ patchStatus = 201 ∨ patchStatus = 202 ∨ patchStatus = 204 then
    (true, [Effect.patchLanguageBulk languageId proficiency])
  else (false, [Effect.patchLanguageBulk languageId proficiency])

/-- One response of `GET /stations?webRtcUserId=...`. -/
structure StationsResp where
  status : Nat
  entities : List Ent
deriving DecidableEq

/-- `get_webrtc_station_for_user(token, user_id)` on one response. -/
def get_webrtc_station_for_user (resp : StationsResp) : Bool × Option String :=
  if resp.status ≠ 200 then (false, none)
  else
    match resp.entities with
    | [] => (false, none)
    | e :: _ => (true, e.id)

/-- The remote system's responses during one user's workflow: the status
of the endpoint-creation POST, the station lookup for each polling
attempt, the default-station PUT status and verification reads, and the
skill/language membership pages and PATCH statuses. -/
structure CreateEnv where
  postStatus : Nat
  stationLookups : Nat → StationsResp
  putStatus : Nat
  stationReads : Nat → Option (List (String × JVal))
  skillPages : List EntPage
  skillPatchStatus : Nat
  langPages : List EntPage
  langPatchStatus : Nat

/-- The station polling loop of `create_webrtc_phone_for_user`: up to 6
attempts; when a lookup reports an associated station with a truthy id,
`set_default_station` is called (its boolean result is discarded) and the
loop breaks.  Returns the mutation effects issued. -/
def stationPollLoop (env : CreateEnv) : Nat → Nat → List Effect
  | _, 0 => []
  | attempt, k + 1 =>
    match get_webrtc_station_for_user (env.stationLookups attempt) with
    | (true, some s) =>
      if s ≠ "" then
        let _ := set_default_station env.putStatus env.stationReads s 8
        [Effect.putDefaultStation s]
      else stationPollLoop env (attempt + 1) k
    | _ => stationPollLoop env (attempt + 1) k

/-- `ensure_user_skill_and_language(token, user, skill_id, language_id)`:
both assignments are attempted; the combined result is their conjunction. -/
def ensure_user_skill_and_language (env : CreateEnv) (skillId languageId : String)
    (skillProf langProf : Rat) : Bool × List Effect :=
  let r1 := ensure_user_skill env.skillPages env.skillPatchStatus skillId skillProf
  let r2 := ensure_user_language env.langPages env.langPatchStatus languageId langProf
  (r1.1 && r2.1, r1.2 ++ r2.2)

/-- `create_webrtc_phone_for_user(token, user, template_phone_details,
skill_id, language_id)`: build the payload (a `ValueError` propagates as
`Except.error` before any request), POST it (failure returns `false`
immediately), poll for the station and best-effort set the default, and
return the capability-assignment conjunction.  The second component is
the list of mutations issued. -/
def create_webrtc_phone_for_user (env : CreateEnv) (tp : TemplatePhone) (u : UserRec)
    (skillId languageId : String) (skillProf langProf : Rat) :
    Except String Bool × List Effect :=
  match build_payload_from_template tp u with
  | .error e => (.error e, [])
  | .ok _payload =>
    if env.postStatus = 200 ∨ env.postStatus = 201 then
      let stEff := stationPollLoop env 1 6
      let r := ensure_user_skill_and_language env skillId languageId skillProf langProf
      (.ok r.1, Effect.postPhone :: (stEff ++ r.2))
    else (.ok false, [Effect.postPhone])

/-- The body of `run`'s creation loop for one user: `try` the workflow,
increment `ok` on a returned `True`, increment `fail` on a returned
`False` or on a caught exception. -/
def provisionStep (tp : TemplatePhone) (skillId languageId : String)
    (skillProf langProf : Rat) (acc : Nat × Nat) (ue : UserRec × CreateEnv) : Nat × Nat :=
  match (create_webrtc_phone_for_user ue.2 tp ue.1 skillId languageId skillProf langProf).1 with
  | .ok true => (acc.1 + 1, acc.2)
  | _ => (acc.1, acc.2 + 1)

/-- Whether one user's workflow returned success (as opposed to returning
failure or raising). -/
def workflowSucceeded (tp : TemplatePhone) (skillId languageId : String)
    (skillProf langProf : Rat) (ue : UserRec × CreateEnv) : Bool :=
  match (create_webrtc_phone_for_user ue.2 tp ue.1 skillId languageId skillProf langProf).1 with
  | .ok true => true
  | _ => false

/-- The creation-phase loop of `run` (lines 439-455): fold the per-user
workflow over the filtered users, counting `ok` for a returned `true` and
`fail` for a returned `false` or a raised exception; no exception escapes
the loop. -/
def run_provision_loop (tp : TemplatePhone) (skillId languageId : String)
    (skillProf langProf : Rat) (users : List (UserRec × CreateEnv)) : Nat × Nat :=
  users.foldl (provisionStep tp skillId languageId skillProf langProf) (0, 0)

/-- The verification loop of `set_default_station` returns `true` on both
of its exits: early on a verified read, and after exhausting the retries. -/
theorem setDefaultVerifyLoop_eq_true (reads : Nat → Option (List (String × JVal)))
    (stationId : String) : ∀ attempt k, setDefaultVerifyLoop reads stationId attempt k = true := by
  intro attempt k
  induction k generalizing attempt with
  | zero => rfl
  | succ k ih =>
    unfold setDefaultVerifyLoop
    split
    · rfl
    · exact ih (attempt + 1)

/-- C4: `set_default_station` returns `False` iff the PUT status is not in
{200, 202, 204}; whenever the PUT is accepted it returns `True`, whatever
the bounded verification re-reads observe. -/
theorem C4_set_default_station_false_iff_put_rejected (putStatus : Nat)
    (reads : Nat → Option (List (String × JVal))) (stationId : String) (retries : Nat) :
    (set_default_station putStatus reads stationId retries = false ↔
      ¬(putStatus = 200 ∨ putStatus = 202 ∨ putStatus = 204)) ∧
    (set_default_station putStatus reads stationId retries = true ↔
      (putStatus = 200 ∨ putStatus = 202 ∨ putStatus = 204)) := by
  unfold set_default_station
  by_cases h : putStatus = 200 ∨ putStatus = 202 ∨ putStatus = 204 <;>
    simp [h, setDefaultVerifyLoop_eq_true]

/-- C7: for every template phone with site id `S`, phone-base-settings id
`B` and first-line line-base-settings id `L`, and a user with id `"u1"`
and name `"Alice"`, `build_payload_from_template` returns exactly the
payload `{name: "WebRTC - Alice", site: {id: S}, phoneBaseSettings:
{id: B}, webRtcUser: {id: "u1"}, lines: [{lineBaseSettings: {id: L}}]}`. -/
theorem C7_build_payload_exact (S B L : String) (rest : List LineEntry) (u : UserRec)
    (hid : u.ID = some "u1") (hnm : u.Naam = "Alice") (hL : L ≠ "") :
    build_payload_from_template ⟨S, B, some (⟨some ⟨some L⟩⟩ :: rest)⟩ u =
      .ok ⟨"WebRTC - Alice", S, B, some "u1", [L]⟩ := by
  simp [build_payload_from_template, hid, hnm, hL]

/-- Witness for C7 at concrete inputs. -/
theorem C7_build_payload_exact_witness :
    build_payload_from_template ⟨"S", "B", some [⟨some ⟨some "L"⟩⟩]⟩
        ⟨some "u1", "Alice", none, none, none⟩ =
      .ok ⟨"WebRTC - Alice", "S", "B", some "u1", ["L"]⟩ :=
  C7_build_payload_exact "S" "B" "L" [] ⟨some "u1", "Alice", none, none, none⟩
    rfl rfl (by decide)

/-- C8: when the membership check reports the capability present,
`ensure_user_skill` (resp. `ensure_user_language`) returns success and
issues no PATCH mutation. -/
theorem C8_ensure_capability_idempotent (spages : List EntPage) (sstat : Nat)
    (skillId : String) (sprof : Rat) (lpages : List EntPage) (lstat : Nat)
    (languageId : String) (lprof : Rat)
    (hs : user_has_skill spages skillId = true)
    (hl : user_has_language lpages languageId = true) :
    ensure_user_skill spages sstat skillId sprof = (true, []) ∧
    ensure_user_language lpages lstat languageId lprof = (true, []) := by
  constructor
  · simp [ensure_user_skill, hs]
  · simp [ensure_user_language, hl]

/-- Witness for C8 at concrete inputs. -/
theorem C8_ensure_capability_idempotent_witness :
    ensure_user_skill [⟨200, [⟨none, some "sk1"⟩], 1⟩] 500 "sk1" 0 = (true, []) ∧
    ensure_user_language [⟨200, [⟨none, some "lg1"⟩], 1⟩] 500 "lg1" 0 = (true, []) :=
  C8_ensure_capability_idempotent [⟨200, [⟨none, some "sk1"⟩], 1⟩] 500 "sk1" 0
    [⟨200, [⟨none, some "lg1"⟩], 1⟩] 500 "lg1" 0 (by decide) (by decide)

/-- The phone scan never matches any phone when the needle is empty. -/
theorem findPhoneGo_empty_needle :
    ∀ (rest : List EntPage) (page : Nat), findPhoneGo "" page rest = none := by
  intro rest
  induction rest with
  | nil => intro page; rfl
  | cons p rest ih =>
    intro page
    have hfind : p.entities.find?
        (fun ph => ("" ≠ "" : Bool) && strContainsSub (pyLower (ph.name.getD "")) "") = none := by
      simp
    unfold findPhoneGo
    rw [hfind]
    split
    · rfl
    · show (if page ≥ p.pageCount then none else findPhoneGo "" (page + 1) rest) = none
      split
      · rfl
      · exact ih (page + 1)

/-- C9: a template-phone name substring that is empty or whitespace-only
makes `find_phone_id_by_name_contains` return `none` for every phone
list (the `needle and ...` guard rejects the empty needle), so an empty
`TEMPLATE_PHONE_NAME_CONTAINS` is a fatal run-level error rather than a
selector of the first phone. -/
theorem C9_empty_needle_matches_nothing (s : String) (pages : List EntPage)
    (h : pyStrip s = "") : find_phone_id_by_name_contains s pages = none := by
  unfold find_phone_id_by_name_contains
  rw [h]
  have hlow : pyLower "" = "" := by decide
  rw [hlow]
  exact findPhoneGo_empty_needle pages 1

/-- Witness for C9 at concrete inputs: a whitespace-only needle against a
page whose phone any nonempty-substring criterion would match. -/
theorem C9_empty_needle_matches_nothing_witness :
    find_phone_id_by_name_contains "   "
      [⟨200, [⟨some "My WebRTC phone", some "p1"⟩], 1⟩] = none :=
  C9_empty_needle_matches_nothing "   "
    [⟨200, [⟨some "My WebRTC phone", some "p1"⟩], 1⟩] (by decide)

/-- The paged name lookup agrees with a single scan over the
concatenation of all pages, as long as pagination is well formed from the
current page onward: every page reports status 200 and a `pageCount`
equal to `start + length - 1` (so the loop visits exactly the given
pages). -/
theorem findRoutingIdGo_eq_flatten_find (needle : String) :
    ∀ (rest : List EntPage) (start : Nat),
      (∀ p ∈ rest, p.status = 200) →
      (∀ p ∈ rest, p.pageCount + 1 = start + rest.length) →
      findRoutingIdGo needle start rest =
        (((rest.map (·.entities)).flatten).find?
            (fun s => canonName (s.name.getD "") == needle)).bind (·.id) := by
  intro rest
  induction rest with
  | nil => intro start _ _; rfl
  | cons p rest ih =>
    intro start hst hpc
    have hp200 : p.status = 200 := hst p (List.mem_cons_self p rest)
    have hppc : p.pageCount + 1 = start + (rest.length + 1) :=
      hpc p (List.mem_cons_self p rest)
    unfold findRoutingIdGo
    rw [if_neg (by omega)]
    rw [List.map_cons, List.flatten_cons, List.find?_append]
    cases hfind : p.entities.find? (fun s => canonName (s.name.getD "") == needle) with
    | some e => simp [hfind]
    | none =>
      simp only [hfind, Option.none_or]
      split
      · have hlen : rest.length = 0 := by omega
        rw [List.eq_nil_of_length_eq_zero hlen]
        rfl
      · exact ih (start + 1)
          (fun q hq => hst q (List.mem_cons_of_mem p hq))
          (fun q hq => by
            have hq' : q.pageCount + 1 = start + (rest.length + 1) := by
              simpa using hpc q (List.mem_cons_of_mem p hq)
            omega)

/-- C6: `find_routing_skill_id_by_name` returns the id of the first
entity, in page order, whose trimmed-lowercased name equals the
trimmed-lowercased query, and `none` when no entity matches after
exhausting all pages. -/
theorem C6_find_skill_first_match (skillName : String) (pages : List EntPage)
    (hst : ∀ p ∈ pages, p.status = 200)
    (hpc : ∀ p ∈ pages, p.pageCount = pages.length) :
    find_routing_skill_id_by_name skillName pages = resolve_skill_id_spec skillName pages := by
  unfold find_routing_skill_id_by_name resolve_skill_id_spec
  exact findRoutingIdGo_eq_flatten_find (canonName skillName) pages 1 hst
    (fun p hp => by have := hpc p hp; omega)

/-- Witness for C6: the spec's scenario — lookup of `"_Voice"` over two
pages where page 1 has no match and page 2 holds `{name "_voice",
id "sk1"}` returns `"sk1"`. -/
theorem C6_find_skill_first_match_witness :
    find_routing_skill_id_by_name "_Voice"
      [⟨200, [⟨some "Other", some "sk0"⟩], 2⟩, ⟨200, [⟨some "_voice", some "sk1"⟩], 2⟩]
      = some "sk1" :=
  (C6_find_skill_first_match "_Voice"
      [⟨200, [⟨some "Other", some "sk0"⟩], 2⟩, ⟨200, [⟨some "_voice", some "sk1"⟩], 2⟩]
      (by decide) (by decide)).trans (by decide)

/-- The paged membership scan returns `false` as soon as it reaches a
non-200 page, whatever pages follow: the pages before the failing one
must report status 200, contain no matching entity, and carry a
`pageCount` large enough that the loop continues. -/
theorem pagedHasIdGo_false_of_bad_page (targetId : String) :
    ∀ (pre : List EntPage) (start : Nat) (bad : EntPage) (rest : List EntPage),
      (∀ p ∈ pre, p.status = 200 ∧ (∀ e ∈ p.entities, e.id ≠ some targetId) ∧
        start + pre.length ≤ p.pageCount) →
      bad.status ≠ 200 →
      pagedHasIdGo targetId start (pre ++ bad :: rest) = false := by
  intro pre
  induction pre with
  | nil =>
    intro start bad rest _ hbad
    unfold pagedHasIdGo
    rw [List.nil_append]
    simp [hbad]
  | cons p pre ih =>
    intro start bad rest hpre hbad
    obtain ⟨hp200, hnoent, hpc⟩ := hpre p (List.mem_cons_self p pre)
    have hpc' : start + (pre.length + 1) ≤ p.pageCount := by simpa using hpc
    have hany : p.entities.any (fun e => e.id == some targetId) = false := by
      rw [List.any_eq_false]
      intro e he
      simpa using hnoent e he
    rw [List.cons_append]
    unfold pagedHasIdGo
    rw [if_neg (by omega)]
    rw [hany, if_neg Bool.false_ne_true]
    rw [if_neg (by omega)]
    exact ih (start + 1) bad rest
      (fun q hq => by
        obtain ⟨h1, h2, h3⟩ := hpre q (List.mem_cons_of_mem p hq)
        refine ⟨h1, h2, ?_⟩
        have h3' : start + (pre.length + 1) ≤ q.pageCount := by simpa using h3
        omega)
      hbad

/-- C10: a non-200 page while fetching the user's skill (resp. language)
associations makes `user_has_skill` (resp. `user_has_language`) report
`false`, so `ensure_user_skill` (resp. `ensure_user_language`) proceeds
to issue the bulk PATCH instead of failing or skipping the assignment. -/
theorem C10_bad_fetch_reports_absent_then_patches (targetId : String) (prof : Rat)
    (patchStatus : Nat) (pre : List EntPage) (bad : EntPage) (rest : List EntPage)
    (hpre : ∀ p ∈ pre, p.status = 200 ∧ (∀ e ∈ p.entities, e.id ≠ some targetId) ∧
      1 + pre.length ≤ p.pageCount)
    (hbad : bad.status ≠ 200) :
    user_has_skill (pre ++ bad :: rest) targetId = false ∧
    (ensure_user_skill (pre ++ bad :: rest) patchStatus targetId prof).2 =
      [Effect.patchSkillBulk targetId prof] ∧
    user_has_language (pre ++ bad :: rest) targetId = false ∧
    (ensure_user_language (pre ++ bad :: rest) patchStatus targetId prof).2 =
      [Effect.patchLanguageBulk targetId prof] := by
  have hfalse : pagedHasIdGo targetId 1 (pre ++ bad :: rest) = false :=
    pagedHasIdGo_false_of_bad_page targetId pre 1 bad rest hpre hbad
  refine ⟨hfalse, ?_, hfalse, ?_⟩
  · unfold ensure_user_skill
    rw [user_has_skill, hfalse]
    simp only [Bool.false_eq_true, if_false]
    split <;> rfl
  · unfold ensure_user_language
    rw [user_has_language, hfalse]
    simp only [Bool.false_eq_true, if_false]
    split <;> rfl

/-- Witness for C10 at concrete inputs: the very first fetch returns 500. -/
theorem C10_bad_fetch_reports_absent_then_patches_witness :
    user_has_skill [⟨500, [], 1⟩] "sk1" = false ∧
    (ensure_user_skill [⟨500, [], 1⟩] 200 "sk1" 0).2 = [Effect.patchSkillBulk "sk1" 0] ∧
    user_has_language [⟨500, [], 1⟩] "sk1" = false ∧
    (ensure_user_language [⟨500, [], 1⟩] 200 "sk1" 0).2 = [Effect.patchLanguageBulk "sk1" 0] :=
  C10_bad_fetch_reports_absent_then_patches "sk1" 0 200 [] ⟨500, [], 1⟩ []
    (by simp) (by decide)

/-- C5 counterexample: with `MAX_USERS = 1` and a single page (pageCount
1) holding two active users, `get_all_active_users` returns both users —
the cap check sits after the `page >= pageCount` break, so the final page
is never truncated. -/
theorem C5_cap_counterexample :
    1 < (get_all_active_users 1
      [⟨200, [⟨some "active", some "u1", some "Alice", none, none, none⟩,
              ⟨some "active", some "u2", some "Bob", none, none, none⟩], 1⟩]).length := by
  decide

/-- Accumulator invariant for the user-listing loop: while the cap is
live the accumulator stays below it, so the result can only overshoot by
the contents of the page processed last. -/
theorem getAllActiveUsersGo_length_bound (maxUsers cap : Nat) (hcap : 1 ≤ cap) :
    ∀ (rest : List UserPage) (page : Nat) (acc : List UserRec),
      acc.length < maxUsers →
      (∀ p ∈ rest, (p.entities.filterMap activeUserRec).length ≤ cap) →
      (getAllActiveUsersGo maxUsers page acc rest).length ≤ maxUsers - 1 + cap := by
  intro rest
  induction rest with
  | nil =>
    intro page acc hacc _
    unfold getAllActiveUsersGo
    omega
  | cons p rest ih =>
    intro page acc hacc hpages
    have hp : (p.entities.filterMap activeUserRec).length ≤ cap :=
      hpages p (List.mem_cons_self p rest)
    unfold getAllActiveUsersGo
    split
    · omega
    · have hlen : (acc ++ p.entities.filterMap activeUserRec).length ≤ maxUsers - 1 + cap := by
        rw [List.length_append]
        omega
      split
      · exact hlen
      · dsimp only
        split
        · calc ((acc ++ p.entities.filterMap activeUserRec).take maxUsers).length
              ≤ maxUsers := by simp
            _ ≤ maxUsers - 1 + cap := by omega
        · rename_i hnocap
          have hlt : (acc ++ p.entities.filterMap activeUserRec).length < maxUsers := by
            rcases Nat.lt_or_ge (acc ++ p.entities.filterMap activeUserRec).length maxUsers with
              h | h
            · exact h
            · exact absurd ⟨by omega, h⟩ hnocap
          exact ih (page + 1) _ hlt (fun q hq => hpages q (List.mem_cons_of_mem p hq))

/-- C5 amended: the `MAX_USERS` cap is applied only between page fetches,
so the final processed page may push the result past the cap; when every
page contributes at most `cap ≥ 1` active users, the result holds at most
`MAX_USERS - 1 + cap` users. -/
theorem C5_amended_cap_bound (maxUsers cap : Nat) (pages : List UserPage)
    (hmax : 0 < maxUsers) (hcap : 1 ≤ cap)
    (hpages : ∀ p ∈ pages, (p.entities.filterMap activeUserRec).length ≤ cap) :
    (get_all_active_users maxUsers pages).length ≤ maxUsers - 1 + cap :=
  getAllActiveUsersGo_length_bound maxUsers cap hcap pages 1 [] (by simpa using hmax) hpages

/-- Witness for the amended C5 at concrete inputs. -/
theorem C5_amended_cap_bound_witness :
    (get_all_active_users 1
      [⟨200, [⟨some "active", some "u1", some "Alice", none, none, none⟩,
              ⟨some "active", some "u2", some "Bob", none, none, none⟩], 1⟩]).length ≤ 2 :=
  C5_amended_cap_bound 1 2
    [⟨200, [⟨some "active", some "u1", some "Alice", none, none, none⟩,
            ⟨some "active", some "u2", some "Bob", none, none, none⟩], 1⟩]
    (by decide) (by decide) (by decide)

/-- One loop step increments exactly one of the two counters, according
to whether the user's workflow succeeded. -/
theorem provisionStep_eq (tp : TemplatePhone) (skillId languageId : String)
    (skillProf langProf : Rat) (acc : Nat × Nat) (ue : UserRec × CreateEnv) :
    provisionStep tp skillId languageId skillProf langProf acc ue =
      if workflowSucceeded tp skillId languageId skillProf langProf ue
      then (acc.1 + 1, acc.2) else (acc.1, acc.2 + 1) := by
  unfold provisionStep workflowSucceeded
  rcases (create_webrtc_phone_for_user ue.2 tp ue.1 skillId languageId skillProf langProf).1
    with e | bv
  · rfl
  · cases bv <;> rfl

/-- In any Boolean count, a predicate and its negation partition the list. -/
theorem countP_add_countP_not {α : Type} (p : α → Bool) (l : List α) :
    l.countP p + l.countP (fun x => !(p x)) = l.length := by
  induction l with
  | nil => rfl
  | cons a l ih =>
    cases h : p a <;> simp [List.countP_cons, h] <;> omega

/-- The creation loop is a fold whose final counters are the starting
counters plus the number of succeeded and not-succeeded users. -/
theorem provisionFold_counts (tp : TemplatePhone) (skillId languageId : String)
    (skillProf langProf : Rat) :
    ∀ (users : List (UserRec × CreateEnv)) (a b : Nat),
      users.foldl (provisionStep tp skillId languageId skillProf langProf) (a, b) =
        (a + users.countP (workflowSucceeded tp skillId languageId skillProf langProf),
         b + users.countP (fun ue => !workflowSucceeded tp skillId languageId skillProf langProf ue)) := by
  intro users
  induction users with
  | nil => intro a b; simp
  | cons u users ih =>
    intro a b
    rw [List.foldl_cons, provisionStep_eq]
    cases hu : workflowSucceeded tp skillId languageId skillProf langProf u with
    | true =>
      rw [if_pos rfl, ih]
      simp [List.countP_cons, hu]
      omega
    | false =>
      rw [if_neg (by simp), ih]
      simp [List.countP_cons, hu]
      omega

/-- C3: batch failure isolation — every user is processed, the final
tally satisfies `ok + fail = total`, and `fail` counts exactly the users
whose workflow returned failure or raised. -/
theorem C3_batch_failure_isolation (tp : TemplatePhone) (skillId languageId : String)
    (skillProf langProf : Rat) (users : List (UserRec × CreateEnv)) :
    (run_provision_loop tp skillId languageId skillProf langProf users).1 +
      (run_provision_loop tp skillId languageId skillProf langProf users).2 = users.length ∧
    (run_provision_loop tp skillId languageId skillProf langProf users).2 =
      users.countP (fun ue => !workflowSucceeded tp skillId languageId skillProf langProf ue) ∧
    (run_provision_loop tp skillId languageId skillProf langProf users).1 =
      users.countP (workflowSucceeded tp skillId languageId skillProf langProf) := by
  have h := provisionFold_counts tp skillId languageId skillProf langProf users 0 0
  unfold run_provision_loop
  rw [h]
  refine ⟨?_, by simp, by simp⟩
  simpa using countP_add_countP_not
    (workflowSucceeded tp skillId languageId skillProf langProf) users

/-- C1: for every user, the workflow result returned by
`create_webrtc_phone_for_user` is success iff the endpoint-creation POST
succeeded (status 200 or 201) and both the skill and the language
assignment succeeded; the outcome of default-device setting/verification
(PUT status, verification reads, station lookups) never changes the
returned result. -/
theorem C1_workflow_success_iff (env : CreateEnv) (tp : TemplatePhone) (u : UserRec)
    (skillId languageId : String) (skillProf langProf : Rat) (pl : Payload)
    (hpl : build_payload_from_template tp u = .ok pl) :
    ((create_webrtc_phone_for_user env tp u skillId languageId skillProf langProf).1 =
        .ok true ↔
      ((env.postStatus = 200 ∨ env.postStatus = 201) ∧
       (ensure_user_skill env.skillPages env.skillPatchStatus skillId skillProf).1 = true ∧
       (ensure_user_language env.langPages env.langPatchStatus languageId langProf).1 = true)) ∧
    (∀ (ps : Nat) (rd : Nat → Option (List (String × JVal))) (lk : Nat → StationsResp),
      (create_webrtc_phone_for_user
          { env with putStatus := ps, stationReads := rd, stationLookups := lk }
          tp u skillId languageId skillProf langProf).1 =
        (create_webrtc_phone_for_user env tp u skillId languageId skillProf langProf).1) := by
  constructor
  · unfold create_webrtc_phone_for_user
    rw [hpl]
    by_cases hpost : env.postStatus = 200 ∨ env.postStatus = 201
    · rw [if_pos hpost]
      unfold ensure_user_skill_and_language
      simp [hpost, Bool.and_eq_true]
    · rw [if_neg hpost]
      simp [hpost]
  · intro ps rd lk
    unfold create_webrtc_phone_for_user ensure_user_skill_and_language
    rw [hpl]
    by_cases hpost : env.postStatus = 200 ∨ env.postStatus = 201 <;> simp [hpost]

/-- A benign environment for concrete evaluations: POST accepted, one
associated station, PUT accepted, reads never verify, both capabilities
already present. -/
def demoEnv : CreateEnv where
  postStatus := 201
  stationLookups := fun _ => ⟨200, [⟨none, some "st1"⟩]⟩
  putStatus := 200
  stationReads := fun _ => none
  skillPages := [⟨200, [⟨none, some "sk1"⟩], 1⟩]
  skillPatchStatus := 200
  langPages := [⟨200, [⟨none, some "lg1"⟩], 1⟩]
  langPatchStatus := 200

/-- Witness for C1 at concrete inputs. -/
theorem C1_workflow_success_iff_witness :
    (create_webrtc_phone_for_user demoEnv ⟨"S", "B", some [⟨some ⟨some "L"⟩⟩]⟩
        ⟨some "u1", "Alice", none, none, none⟩ "sk1" "lg1" 0 0).1 = .ok true :=
  (C1_workflow_success_iff demoEnv ⟨"S", "B", some [⟨some ⟨some "L"⟩⟩]⟩
      ⟨some "u1", "Alice", none, none, none⟩ "sk1" "lg1" 0 0
      ⟨"WebRTC - Alice", "S", "B", some "u1", ["L"]⟩ rfl).1.mpr
    ⟨Or.inr rfl, rfl, rfl⟩

/-- C2 counterexample: with a template phone whose configuration has no
`lines` entry, the run does NOT stop before user mutations are skipped —
instead every user of the batch is recorded as a per-user failure (here:
a 2-user batch tallies `ok = 0, fail = 2`), refuting both the
run-aborting and the not-per-user parts of the claim. -/
theorem C2_no_lines_counterexample :
    run_provision_loop ⟨"S", "B", none⟩ "sk1" "lg1" 0 0
      [(⟨some "u1", "Alice", none, none, none⟩, demoEnv),
       (⟨some "u2", "Bob", none, none, none⟩, demoEnv)] = (0, 2) := rfl

/-- C2 amended: a template configuration without lines is caught by
`build_payload_from_template` before any network mutation is attempted
for a user, but it is not run-aborting: `run`'s per-user exception
handler records a failure for every user in the batch and the loop runs
to completion (final tally `ok = 0`, `fail = ` batch size). -/
theorem C2_amended_no_lines_fails_each_user (tp : TemplatePhone)
    (hlines : tp.lines.getD [] = []) (u : UserRec) (env : CreateEnv)
    (skillId languageId : String) (skillProf langProf : Rat)
    (users : List (UserRec × CreateEnv)) :
    create_webrtc_phone_for_user env tp u skillId languageId skillProf langProf =
      (.error "Template phone has no lines[]", []) ∧
    run_provision_loop tp skillId languageId skillProf langProf users = (0, users.length) := by
  have hbuild : ∀ w : UserRec,
      build_payload_from_template tp w = .error "Template phone has no lines[]" := by
    intro w
    unfold build_payload_from_template
    rw [hlines]
  constructor
  · unfold create_webrtc_phone_for_user
    rw [hbuild u]
  · unfold run_provision_loop
    rw [provisionFold_counts]
    have hzero : users.countP (workflowSucceeded tp skillId languageId skillProf langProf) = 0 := by
      rw [List.countP_eq_zero]
      intro ue _
      unfold workflowSucceeded create_webrtc_phone_for_user
      rw [hbuild ue.1]
      simp
    have htot := countP_add_countP_not
      (workflowSucceeded tp skillId languageId skillProf langProf) users
    rw [hzero] at htot ⊢
    rw [Nat.zero_add] at htot
    rw [htot]
    simp

/-- Witness for the amended C2 at concrete inputs: a 1-user batch. -/
theorem C2_amended_no_lines_fails_each_user_witness :
    create_webrtc_phone_for_user demoEnv ⟨"S", "B", none⟩
        ⟨some "u1", "Alice", none, none, none⟩ "sk1" "lg1" 0 0 =
      (.error "Template phone has no lines[]", []) ∧
    run_provision_loop ⟨"S", "B", none⟩ "sk1" "lg1" 0 0
      [(⟨some "u1", "Alice", none, none, none⟩, demoEnv)] = (0, 1) :=
  C2_amended_no_lines_fails_each_user ⟨"S", "B", none⟩ rfl
    ⟨some "u1", "Alice", none, none, none⟩ demoEnv "sk1" "lg1" 0 0
    [(⟨some "u1", "Alice", none, none, none⟩, demoEnv)]

end WebRTC
